import Mathlib

/-!
Shallow embedding of the documentation-site build configuration
(docs/conf.py) of the stm32-devops-template repository.

The file is a flat sequence of top-level Python assignments of literal
values (strings, booleans, lists, dictionaries) plus one f-string.  We
model Python values with an inductive type so that shape properties
(being a string, a list of strings, a dictionary with string values) are
genuine checks rather than typing artifacts, translate every assignment
of conf.py in source order, and model module evaluation as a left fold
of assignments over an initially empty namespace.
-/

namespace ConfPy

/-- A Python value of the kinds used in docs/conf.py: strings, booleans,
lists, and string-keyed dictionaries. -/
inductive PyValue where
  | str : String → PyValue
  | bool : Bool → PyValue
  | list : List PyValue → PyValue
  | dict : List (String × PyValue) → PyValue

/-- Whether a value is a Python string. -/
def PyValue.isStr : PyValue → Bool
  | .str _ => true
  | _ => false

/-- Whether a value is a non-empty Python string. -/
def PyValue.isNonEmptyStr : PyValue → Bool
  | .str s => !s.isEmpty
  | _ => false

/-- Whether a value is a Python boolean. -/
def PyValue.isBool : PyValue → Bool
  | .bool _ => true
  | _ => false

/-- Whether a value is a list all of whose elements are strings. -/
def PyValue.isListOfStr : PyValue → Bool
  | .list xs => xs.all PyValue.isStr
  | _ => false

/-- The elements of a list value (empty for non-lists). -/
def PyValue.listElems : PyValue → List PyValue
  | .list xs => xs
  | _ => []

/-- The key-value entries of a dictionary value (empty for non-dicts). -/
def PyValue.dictEntries : PyValue → List (String × PyValue)
  | .dict m => m
  | _ => []

/-- The keys of a dictionary value, in declaration order. -/
def PyValue.dictKeys (v : PyValue) : List String :=
  v.dictEntries.map Prod.fst

/-- Look up a key in a dictionary value. -/
def PyValue.dictLookup (v : PyValue) (k : String) : Option PyValue :=
  v.dictEntries.lookup k

/-- Whether a dictionary value binds key `k` to a string. -/
def PyValue.hasStrEntry (v : PyValue) (k : String) : Bool :=
  match v.dictLookup k with
  | some w => w.isStr
  | none => false

mutual

/-- Python repr() of a value, the fallback used when a non-string value
is converted to text. -/
def pyRepr : PyValue → String
  | .str s => "'" ++ s ++ "'"
  | .bool b => cond b "True" "False"
  | .list xs => "[" ++ pyReprList xs ++ "]"
  | .dict m => "\x7b" ++ pyReprDict m ++ "\x7d"

/-- Comma-separated reprs of list elements. -/
def pyReprList : List PyValue → String
  | [] => ""
  | [v] => pyRepr v
  | v :: vs => pyRepr v ++ ", " ++ pyReprList vs

/-- Comma-separated reprs of dictionary entries. -/
def pyReprDict : List (String × PyValue) → String
  | [] => ""
  | [(k, v)] => "'" ++ k ++ "': " ++ pyRepr v
  | (k, v) :: m => "'" ++ k ++ "': " ++ pyRepr v ++ ", " ++ pyReprDict m

end

/-- Python str() of a value, the conversion applied by f-string
interpolation: a string interpolates as itself, anything else as its
repr (for booleans, str and repr agree). -/
def pyStr : PyValue → String
  | .str s => s
  | .bool b => cond b "True" "False"
  | v => pyRepr v

/-- conf.py line 9. -/
def project : PyValue := .str "STM32 DevOps Template"

/-- conf.py line 10. -/
def copyright : PyValue := .str "2025, Shishir Dey"

/-- conf.py line 11. -/
def author : PyValue := .str "Shishir Dey"

/-- conf.py line 12. -/
def release : PyValue := .str "v1.0.0"

/-- conf.py lines 17-24. -/
def extensions : PyValue := .list
  [.str "sphinx.ext.autodoc",
   .str "sphinx.ext.viewcode",
   .str "sphinx.ext.napoleon",
   .str "sphinx.ext.githubpages",
   .str "breathe",
   .str "myst_parser"]

/-- conf.py line 26. -/
def templates_path : PyValue := .list [.str "_templates"]

/-- conf.py line 27. -/
def exclude_patterns : PyValue := .list
  [.str "_build", .str "Thumbs.db", .str ".DS_Store"]

/-- conf.py line 32. -/
def html_theme : PyValue := .str "sphinx_rtd_theme"

/-- conf.py line 33. -/
def html_static_path : PyValue := .list [.str "_static"]

/-- conf.py lines 36-38. -/
def breathe_projects : PyValue := .dict
  [("STM32DevOpsTemplate", .str "./doxygen/xml")]

/-- conf.py line 39. -/
def breathe_default_project : PyValue := .str "STM32DevOpsTemplate"

/-- conf.py lines 42-54. -/
def myst_enable_extensions : PyValue := .list
  [.str "amsmath",
   .str "colon_fence",
   .str "deflist",
   .str "dollarmath",
   .str "html_admonition",
   .str "html_image",
   .str "linkify",
   .str "replacements",
   .str "smartquotes",
   .str "substitution",
   .str "tasklist"]

/-- conf.py line 57: the f-string interpolates str() of the two values
with a single space between them. -/
def html_title : PyValue := .str (pyStr project ++ " " ++ pyStr release)

/-- conf.py line 58. -/
def html_short_title : PyValue := project

/-- conf.py line 59. -/
def html_show_sourcelink : PyValue := .bool false

/-- conf.py line 60. -/
def html_show_sphinx : PyValue := .bool false

/-- conf.py line 61. -/
def html_show_copyright : PyValue := .bool true

/-- conf.py lines 64-70. -/
def html_context : PyValue := .dict
  [("display_github", .bool true),
   ("github_user", .str "shishir-dey"),
   ("github_repo", .str "stm32-devops-template"),
   ("github_version", .str "main/"),
   ("conf_py_path", .str "/docs/")]

/-- The top-level assignments of conf.py, name and value, in source
order (lines 9 through 70). -/
def assignments : List (String × PyValue) :=
  [("project", project),
   ("copyright", copyright),
   ("author", author),
   ("release", release),
   ("extensions", extensions),
   ("templates_path", templates_path),
   ("exclude_patterns", exclude_patterns),
   ("html_theme", html_theme),
   ("html_static_path", html_static_path),
   ("breathe_projects", breathe_projects),
   ("breathe_default_project", breathe_default_project),
   ("myst_enable_extensions", myst_enable_extensions),
   ("html_title", html_title),
   ("html_short_title", html_short_title),
   ("html_show_sourcelink", html_show_sourcelink),
   ("html_show_sphinx", html_show_sphinx),
   ("html_show_copyright", html_show_copyright),
   ("html_context", html_context)]

/-- Assign name `k` to value `v` in a module namespace, with Python
semantics: rebinding an existing name replaces its value in place, a
fresh name is appended. -/
def assign (ns : List (String × PyValue)) (k : String) (v : PyValue) :
    List (String × PyValue) :=
  if ns.any (fun p => p.1 == k) then
    ns.map (fun p => if p.1 == k then (k, v) else p)
  else
    ns ++ [(k, v)]

/-- The module namespace obtained by evaluating the assignments of
conf.py top to bottom, starting from an empty namespace.  This is the
mapping of names to values the external documentation generator reads. -/
def evalConf : List (String × PyValue) :=
  assignments.foldl (fun ns kv => assign ns kv.1 kv.2) []

/-- Whether the evaluated configuration binds name `k` at all. -/
def confBinds (k : String) : Bool :=
  (evalConf.lookup k).isSome

/-- Whether the evaluated configuration binds name `k` to a string. -/
def confBindsStr (k : String) : Bool :=
  match evalConf.lookup k with
  | some v => v.isStr
  | none => false

/-- C1: the extraction-path mapping breathe_projects has exactly one
entry, and the value of that entry is a path string. -/
theorem breathe_projects_single_path_entry :
    breathe_projects.dictEntries.length = 1 ∧
      breathe_projects.dictEntries.all (fun kv => kv.2.isStr) = true :=
  ⟨rfl, rfl⟩

/-- C2: every declared list-valued configuration entry (extensions,
templates_path, exclude_patterns, html_static_path,
myst_enable_extensions) is a list whose elements are all strings. -/
theorem declared_lists_are_string_lists :
    extensions.isListOfStr = true ∧
      templates_path.isListOfStr = true ∧
      exclude_patterns.isListOfStr = true ∧
      html_static_path.isListOfStr = true ∧
      myst_enable_extensions.isListOfStr = true :=
  ⟨rfl, rfl, rfl, rfl, rfl⟩

/-- C3: the HTML theme identifier and the project identifier are both
non-empty strings. -/
theorem theme_and_project_nonempty_strings :
    html_theme.isNonEmptyStr = true ∧ project.isNonEmptyStr = true :=
  ⟨rfl, rfl⟩

/-- C4: no two entries of the exclusion-pattern list are equal. -/
theorem exclude_patterns_entries_nodup :
    exclude_patterns.listElems.Nodup := by
  simp [exclude_patterns, PyValue.listElems]

/-- C5: the configuration defines the source-hosting context mapping
html_context, with entries for the host user, the repository name, the
branch, and the path prefix, each a string. -/
theorem html_context_hosting_entries :
    confBinds "html_context" = true ∧
      html_context.hasStrEntry "github_user" = true ∧
      html_context.hasStrEntry "github_repo" = true ∧
      html_context.hasStrEntry "github_version" = true ∧
      html_context.hasStrEntry "conf_py_path" = true :=
  ⟨rfl, rfl, rfl, rfl, rfl⟩

/-- C6: the top-level project-information names project, copyright,
author and release are all bound by the evaluated configuration, each
to a string. -/
theorem project_information_keys_are_strings :
    confBindsStr "project" = true ∧
      confBindsStr "copyright" = true ∧
      confBindsStr "author" = true ∧
      confBindsStr "release" = true :=
  ⟨rfl, rfl, rfl, rfl⟩

/-- C7: the configuration defines all five HTML display options: the
show-source-link, show-build-tool-credit and show-copyright toggles are
booleans, and the page title and short title are strings. -/
theorem html_display_options_defined_and_shaped :
    confBinds "html_show_sourcelink" = true ∧
      confBinds "html_show_sphinx" = true ∧
      confBinds "html_show_copyright" = true ∧
      confBinds "html_title" = true ∧
      confBinds "html_short_title" = true ∧
      html_show_sourcelink.isBool = true ∧
      html_show_sphinx.isBool = true ∧
      html_show_copyright.isBool = true ∧
      html_title.isStr = true ∧
      html_short_title.isStr = true :=
  ⟨rfl, rfl, rfl, rfl, rfl, rfl, rfl, rfl, rfl, rfl⟩

/-- C8: every configuration name is assigned exactly once, so evaluating
the assignments in order never rebinds a name and the resulting
namespace is exactly the assignment list itself. -/
theorem configuration_names_write_once :
    (assignments.map Prod.fst).Nodup ∧ evalConf = assignments :=
  ⟨by decide, rfl⟩

/-- C9: the default extraction project identifier is a key of the
extraction-path mapping, so the default refers to a defined project. -/
theorem breathe_default_project_is_defined_key :
    ∃ s, breathe_default_project = PyValue.str s ∧
      s ∈ breathe_projects.dictKeys :=
  ⟨"STM32DevOpsTemplate", rfl, by decide⟩

/-- C10: the page title is the project string, a single space, and the
release string concatenated in that order, and the short title is
exactly the project string. -/
theorem html_titles_derived_from_project_and_release :
    ∃ p r, project = PyValue.str p ∧ release = PyValue.str r ∧
      html_title = PyValue.str (p ++ " " ++ r) ∧
      html_short_title = project :=
  ⟨"STM32 DevOps Template", "v1.0.0", rfl, rfl, rfl, rfl⟩

end ConfPy
